import Mathlib

/-!
Shallow embedding of the ESP-NOW LED controller (src/custom/led_controller.cpp).

The program keeps a global `led_command_t ledCommand` (eight unsigned 8-bit
fields), a handful of bookkeeping globals (`ledsOn`, `displayBrightness`,
`lastSendSuccess`, `commandsSent`, `requestsReceived`, `lastHeartbeat`), and
two function-local statics: `lastRequest` in `OnDataRecv` and
`lastSendAttempt` in `sendCommand`.  All of them are collected into one
`CtrlState` record.  The wall clock `millis()` is passed explicitly as a
`Nat` argument `now`; the `uint32_t` difference `millis() - x` equals `Nat`
subtraction whenever the clock is monotone and no 32-bit wrap occurs, which
every theorem below assumes by construction of its time arguments.
A successfully queued `esp_now_send` of the 8-byte command record is modelled
by appending the record to the `sent` trace.  `Serial` printing, LVGL widget
updates (`updateStatus`, `updateStats` label text) and `panel` calls are
external I/O with no effect on the modelled state and are omitted.
-/

/-- The `led_command_t` struct: eight `uint8_t` fields, in declaration
order `[red, green, blue, white, warmWhite, brightness, effect, speed]`.
Each field is kept as a `Nat`; every assignment from a wider or signed
source reduces modulo 256, exactly as the C++ conversion to `uint8_t` does. -/
structure LedCommand where
  red : Nat
  green : Nat
  blue : Nat
  white : Nat
  warmWhite : Nat
  brightness : Nat
  effect : Nat
  speed : Nat
deriving DecidableEq

/-- `esp_now_send_status_t` as delivered to the send callback. -/
inductive EspNowSendStatus where
  | success
  | fail
deriving DecidableEq

/-- `status == ESP_NOW_SEND_SUCCESS`. -/
def EspNowSendStatus.isSuccess : EspNowSendStatus → Bool
  | .success => true
  | .fail => false

/-- All mutable program state touched by the protocol logic: the global
variables of led_controller.cpp plus the two function-local statics
(`lastRequest` of `OnDataRecv`, `lastSendAttempt` of `sendCommand`) and the
trace `sent` of command records handed to `esp_now_send`. -/
structure CtrlState where
  ledCommand : LedCommand
  ledsOn : Bool
  displaySleeping : Bool
  displayBrightness : Nat
  lastSendSuccess : Bool
  commandsSent : Nat
  requestsReceived : Nat
  lastHeartbeat : Nat
  lastRequest : Nat
  lastSendAttempt : Nat
  sent : List LedCommand
deriving DecidableEq

/-- `const uint32_t HEARTBEAT_INTERVAL = 5000;` -/
def HEARTBEAT_INTERVAL : Nat := 5000

/-- `sendCommand()` (lines 580-601): rate limiter first — if fewer than
50 ms have passed since `lastSendAttempt`, return without doing anything;
otherwise stamp `lastSendAttempt = millis()` and hand the current
`ledCommand` bytes to `esp_now_send` (recorded on the `sent` trace).
There is no change detection: the function never compares the current
command against a previously sent one. -/
def sendCommand (now : Nat) (s : CtrlState) : CtrlState :=
  if now - s.lastSendAttempt < 50 then s
  else { s with lastSendAttempt := now, sent := s.sent ++ [s.ledCommand] }

/-- `sendHeartbeat()` (lines 603-606): just calls `sendCommand()`. -/
def sendHeartbeat (now : Nat) (s : CtrlState) : CtrlState :=
  sendCommand now s

/-- `OnDataSent` (lines 106-118): `lastSendSuccess = (status == SUCCESS)`;
on success `commandsSent++`, otherwise only status text changes. -/
def OnDataSent (status : EspNowSendStatus) (s : CtrlState) : CtrlState :=
  if status.isSuccess then
    { s with lastSendSuccess := true, commandsSent := s.commandsSent + 1 }
  else
    { s with lastSendSuccess := false }

/-- `OnDataRecv` (lines 120-150).  The debounce check runs first and the
static `lastRequest` is stamped to `millis()` BEFORE any validation of the
payload.  Then, if the length equals `sizeof(color_request_t)` (2 bytes)
and both bytes equal 1, the request counter is incremented and
`sendCommand()` is called (so the reply still goes through the 50 ms rate
limiter).  The sender MAC is only printed, never examined.  `incomingData`
is the datagram as a byte list; byte 0 is `requestType`, byte 1 is
`fromReceiver`, per the `memcpy` into `color_request_t`. -/
def OnDataRecv (now : Nat) (mac : List Nat) (incomingData : List Nat)
    (s : CtrlState) : CtrlState :=
  if now - s.lastRequest < 200 then s
  else if incomingData.length == 2 then
    if incomingData.headD 0 == 1 && (incomingData.drop 1).headD 0 == 1 then
      sendCommand now
        { s with lastRequest := now,
                 requestsReceived := s.requestsReceived + 1 }
    else { s with lastRequest := now }
  else { s with lastRequest := now }

/-- First block of `loop()` (lines 251-277), with LVGL timer handling and
the two `delay` calls elided (pure I/O): fire the heartbeat when more than
`HEARTBEAT_INTERVAL` ms have elapsed since `lastHeartbeat`, then stamp
`lastHeartbeat = millis()`. -/
def loopHeartbeat (now : Nat) (s : CtrlState) : CtrlState :=
  if HEARTBEAT_INTERVAL < now - s.lastHeartbeat then
    { sendHeartbeat now s with lastHeartbeat := now }
  else s

/-- Second block of `loop()`: wake the display when it is sleeping and the
panel reports a touch. -/
def loopTouch (touched : Bool) (s : CtrlState) : CtrlState :=
  if s.displaySleeping && touched then { s with displaySleeping := false } else s

/-- One full pass of `loop()`: heartbeat block, then touch-wake block. -/
def loop (now : Nat) (touched : Bool) (s : CtrlState) : CtrlState :=
  loopTouch touched (loopHeartbeat now s)

/-- `ledToggleButtonEvent` (lines 483-501): flip `ledsOn`; when turning ON,
`ledCommand.brightness = displayBrightness`; when turning OFF,
`ledCommand.brightness = -255`, i.e. the signed literal converted to
`uint8_t`, which is `(-255) mod 256`; then `sendCommand()`. -/
def ledToggleButtonEvent (now : Nat) (s : CtrlState) : CtrlState :=
  if !s.ledsOn then
    sendCommand now
      { s with ledsOn := !s.ledsOn,
               ledCommand :=
                 { s.ledCommand with brightness := s.displayBrightness % 256 } }
  else
    sendCommand now
      { s with ledsOn := !s.ledsOn,
               ledCommand :=
                 { s.ledCommand with brightness := ((-255 : Int) % 256).toNat } }

/-- `backlightSliderEvent` (lines 503-508): stores the slider value
(range 1-16) into `displayBrightness`; `panel.setBrightness` is external
I/O.  No send is triggered. -/
def backlightSliderEvent (v : Nat) (s : CtrlState) : CtrlState :=
  { s with displayBrightness := v }

/-- `sleepButtonEvent` (lines 510-515). -/
def sleepButtonEvent (s : CtrlState) : CtrlState :=
  { s with displaySleeping := true }

/-- `colorPickerEvent` (lines 517-524): store the picked colour channels
into `ledCommand` and call `sendCommand()`.  `r`, `g`, `b` are the channel
values read from the colour wheel, each assigned to a `uint8_t` field. -/
def colorPickerEvent (now r g b : Nat) (s : CtrlState) : CtrlState :=
  sendCommand now
    { s with
      ledCommand :=
        { s.ledCommand with red := r % 256, green := g % 256, blue := b % 256 } }

/-- `brightnessSliderEvent` (lines 526-530): slider value (range 1-100)
into `ledCommand.brightness`, then `sendCommand()`. -/
def brightnessSliderEvent (now v : Nat) (s : CtrlState) : CtrlState :=
  sendCommand now
    { s with ledCommand := { s.ledCommand with brightness := v % 256 } }

/-- `whiteSliderEvent` (lines 532-544): the white slider writes
`ledCommand.white`, the warm-white slider writes `ledCommand.warmWhite`;
`isWhite` tells which slider fired; then `sendCommand()`. -/
def whiteSliderEvent (now : Nat) (isWhite : Bool) (v : Nat) (s : CtrlState) :
    CtrlState :=
  if isWhite then
    sendCommand now { s with ledCommand := { s.ledCommand with white := v % 256 } }
  else
    sendCommand now
      { s with ledCommand := { s.ledCommand with warmWhite := v % 256 } }

/-- `effectDropdownEvent` (lines 546-550). -/
def effectDropdownEvent (now v : Nat) (s : CtrlState) : CtrlState :=
  sendCommand now { s with ledCommand := { s.ledCommand with effect := v % 256 } }

/-- `speedSliderEvent` (lines 552-556). -/
def speedSliderEvent (now v : Nat) (s : CtrlState) : CtrlState :=
  sendCommand now { s with ledCommand := { s.ledCommand with speed := v % 256 } }

/-- The default command record installed by `setup()` (lines 220-228):
red 255, everything else 0 except brightness 16 (DEFAULT_BRIGHTNESS) and
speed 50. -/
def initLedCommand : LedCommand :=
  { red := 255, green := 0, blue := 0, white := 0, warmWhite := 0,
    brightness := 16, effect := 0, speed := 50 }

/-- Program state right after `setup()` initialises the globals and before
any send: all counters and timestamps zero, LEDs on, backlight 16. -/
def initState : CtrlState :=
  { ledCommand := initLedCommand, ledsOn := true, displaySleeping := false,
    displayBrightness := 16, lastSendSuccess := false, commandsSent := 0,
    requestsReceived := 0, lastHeartbeat := 0, lastRequest := 0,
    lastSendAttempt := 0, sent := [] }

/-- A six-byte MAC address used as a concrete sender in witnesses. -/
def macZero : List Nat := [0, 0, 0, 0, 0, 0]

/-- The branch structure of `OnDataRecv` accepts a datagram exactly when it
is 2 bytes long and both bytes equal 1. -/
def isValidRequest (d : List Nat) : Bool :=
  d.length == 2 && (d.headD 0 == 1 && (d.drop 1).headD 0 == 1)

theorem sendCommand_blocked (now : Nat) (s : CtrlState)
    (h : now - s.lastSendAttempt < 50) : sendCommand now s = s := by
  simp [sendCommand, h]

theorem sendCommand_fires (now : Nat) (s : CtrlState)
    (h : 50 ≤ now - s.lastSendAttempt) :
    sendCommand now s
      = { s with lastSendAttempt := now, sent := s.sent ++ [s.ledCommand] } := by
  rw [sendCommand, if_neg (by omega)]

theorem OnDataRecv_debounced (now : Nat) (mac d : List Nat) (s : CtrlState)
    (h : now - s.lastRequest < 200) : OnDataRecv now mac d s = s := by
  simp [OnDataRecv, h]

theorem OnDataRecv_accepts (now : Nat) (mac : List Nat) (s : CtrlState)
    (h : 200 ≤ now - s.lastRequest) :
    OnDataRecv now mac [1, 1] s
      = sendCommand now
          { s with lastRequest := now,
                   requestsReceived := s.requestsReceived + 1 } := by
  rw [OnDataRecv, if_neg (by omega)]
  rfl

theorem OnDataRecv_rejects (now : Nat) (mac d : List Nat) (s : CtrlState)
    (hd : 200 ≤ now - s.lastRequest) (h : isValidRequest d = false) :
    OnDataRecv now mac d s = { s with lastRequest := now } := by
  rw [OnDataRecv, if_neg (by omega)]
  by_cases hl : (d.length == 2) = true
  · rw [if_pos hl]
    have ht : (d.headD 0 == 1 && (d.drop 1).headD 0 == 1) = false := by
      simpa [isValidRequest, hl] using h
    rw [ht]
    simp
  · rw [if_neg hl]

theorem sendCommand_lastHeartbeat (t : Nat) (x : CtrlState) :
    (sendCommand t x).lastHeartbeat = x.lastHeartbeat := by
  unfold sendCommand
  split <;> rfl

theorem OnDataRecv_lastHeartbeat (t : Nat) (m d : List Nat) (x : CtrlState) :
    (OnDataRecv t m d x).lastHeartbeat = x.lastHeartbeat := by
  unfold OnDataRecv
  split
  · rfl
  · split
    · split
      · exact sendCommand_lastHeartbeat t _
      · rfl
    · rfl

theorem ledToggle_off (now : Nat) (s : CtrlState) (hon : s.ledsOn = true) :
    ledToggleButtonEvent now s
      = sendCommand now
          { s with ledsOn := false,
                   ledCommand := { s.ledCommand with brightness := 1 } } := by
  unfold ledToggleButtonEvent
  rw [hon]
  norm_num

theorem ledToggle_on (now : Nat) (s : CtrlState) (hoff : s.ledsOn = false) :
    ledToggleButtonEvent now s
      = sendCommand now
          { s with ledsOn := true,
                   ledCommand :=
                     { s.ledCommand with
                       brightness := s.displayBrightness % 256 } } := by
  unfold ledToggleButtonEvent
  rw [hoff]
  norm_num

/-- C1 (counterexample): `sendCommand` contains no change detection, so two
calls with identical, unmutated command state both transmit whenever they
are at least 50 ms apart.  From the post-setup state, calls at 1000 ms and
1100 ms produce two transmissions, refuting "at most one transmitted send
... because an unforced evaluation with unchanged state is a no-op". -/
theorem claim1_cex :
    initState.sent = [] ∧
    (sendCommand 1100 (sendCommand 1000 initState)).sent.length = 2 := by
  exact ⟨rfl, rfl⟩

/-- C1 (amended): two `sendCommand` calls with no intervening state
mutation produce at most one transmission when the second call falls
within 50 ms of the first; the suppression comes from the rate limiter
(`lastSendAttempt`), not from any unchanged-state check, which the code
does not have. -/
theorem claim1_amended (s : CtrlState) (t1 t2 : Nat) (h : t2 - t1 < 50) :
    (sendCommand t2 (sendCommand t1 s)).sent.length ≤ s.sent.length + 1 := by
  by_cases h1 : t1 - s.lastSendAttempt < 50
  · rw [sendCommand_blocked t1 s h1]
    by_cases h2 : t2 - s.lastSendAttempt < 50
    · rw [sendCommand_blocked t2 s h2]
      omega
    · rw [sendCommand_fires t2 s (by omega)]
      simp
  · rw [sendCommand_fires t1 s (by omega)]
    rw [sendCommand_blocked t2 _ h]
    simp

/-- C1 witness: the amended statement evaluated at the post-setup state
with calls at 1000 ms and 1030 ms. -/
theorem claim1_witness :
    (sendCommand 1030 (sendCommand 1000 initState)).sent.length
      ≤ initState.sent.length + 1 :=
  claim1_amended initState 1000 1030 (by decide)

/-- C2 (counterexample): a valid `[1,1]` resync request does NOT bypass the
rate limiter: `OnDataRecv` replies through `sendCommand`, which suppresses
the send when the previous attempt was less than 50 ms ago.  With
`lastSendAttempt = 1000`, a valid request at 1030 ms is accepted (the
counter increments) yet nothing is transmitted. -/
theorem claim2_cex :
    (OnDataRecv 1030 macZero [1, 1]
        { initState with lastSendAttempt := 1000 }).sent = [] ∧
    (OnDataRecv 1030 macZero [1, 1]
        { initState with lastSendAttempt := 1000 }).requestsReceived = 1 := by
  exact ⟨rfl, rfl⟩

/-- C2 (amended): of two send triggers less than 50 ms apart only the first
transmits; a valid resync request arriving as the second trigger is still
accepted (debounce permitting) and its counter incremented, but its
transmission is suppressed by the same rate limiter — resync requests get
no bypass. -/
theorem claim2_amended (s : CtrlState) (t1 t2 : Nat) (mac : List Nat)
    (h1 : 50 ≤ t1 - s.lastSendAttempt) (h2 : t2 - t1 < 50)
    (h3 : 200 ≤ t2 - s.lastRequest) :
    (sendCommand t1 s).sent = s.sent ++ [s.ledCommand] ∧
    (OnDataRecv t2 mac [1, 1] (sendCommand t1 s)).sent
      = s.sent ++ [s.ledCommand] ∧
    (OnDataRecv t2 mac [1, 1] (sendCommand t1 s)).requestsReceived
      = s.requestsReceived + 1 := by
  have c1 : ¬ (t1 - s.lastSendAttempt < 50) := by omega
  have c2 : ¬ (t2 - s.lastRequest < 200) := by omega
  simp only [OnDataRecv, sendCommand]
  simp [c1, c2, h2]

/-- C2 witness: the amended statement evaluated at the post-setup state,
send trigger at 1000 ms, valid request at 1030 ms. -/
theorem claim2_witness :
    (sendCommand 1000 initState).sent
      = initState.sent ++ [initState.ledCommand] ∧
    (OnDataRecv 1030 macZero [1, 1] (sendCommand 1000 initState)).sent
      = initState.sent ++ [initState.ledCommand] ∧
    (OnDataRecv 1030 macZero [1, 1] (sendCommand 1000 initState)).requestsReceived
      = initState.requestsReceived + 1 :=
  claim2_amended initState 1000 1030 macZero (by decide) (by decide) (by decide)

/-- C3 (counterexample): setting the colour to (0,255,0) at 1000 ms and to
(0,255,10) at 1010 ms (inside the 50 ms window) produces exactly one
transmission — but it carries (0,255,0), the FIRST state, because the
first event transmits immediately and the second is the one dropped.  This
refutes "the transmitted datagram carries ... (0,255,10)". -/
theorem claim3_cex :
    ((colorPickerEvent 1010 0 255 10
        (colorPickerEvent 1000 0 255 0 initState)).sent.map
      fun c => (c.red, c.green, c.blue)) = [(0, 255, 0)] := by
  rfl

/-- C3 (amended): in such a burst exactly one send occurs and it carries
the first sampled state (0,255,0); the second attempt is dropped, not
deferred, and the final state (0,255,10) is only transmitted by the next
trigger that fires after the limiter reopens (here a `sendCommand` at
`t3 ≥ t1 + 50`). -/
theorem claim3_amended (s : CtrlState) (t1 t2 t3 : Nat)
    (h1 : 50 ≤ t1 - s.lastSendAttempt) (h2 : t2 - t1 < 50)
    (h3 : 50 ≤ t3 - t1) :
    (colorPickerEvent t2 0 255 10 (colorPickerEvent t1 0 255 0 s)).sent
      = s.sent ++ [{ s.ledCommand with red := 0, green := 255, blue := 0 }] ∧
    (colorPickerEvent t2 0 255 10 (colorPickerEvent t1 0 255 0 s)).ledCommand
      = { s.ledCommand with red := 0, green := 255, blue := 10 } ∧
    (sendCommand t3
        (colorPickerEvent t2 0 255 10 (colorPickerEvent t1 0 255 0 s))).sent
      = s.sent ++ [{ s.ledCommand with red := 0, green := 255, blue := 0 },
                   { s.ledCommand with red := 0, green := 255, blue := 10 }] := by
  have c1 : ¬ (t1 - s.lastSendAttempt < 50) := by omega
  have c3 : ¬ (t3 - t1 < 50) := by omega
  simp only [colorPickerEvent, sendCommand]
  simp [c1, c3, h2]

/-- C3 witness: the amended statement evaluated at the post-setup state
with events at 1000 ms and 1010 ms and a later trigger at 1060 ms. -/
theorem claim3_witness :
    (colorPickerEvent 1010 0 255 10 (colorPickerEvent 1000 0 255 0 initState)).sent
      = initState.sent
          ++ [{ initState.ledCommand with red := 0, green := 255, blue := 0 }] ∧
    (colorPickerEvent 1010 0 255 10
        (colorPickerEvent 1000 0 255 0 initState)).ledCommand
      = { initState.ledCommand with red := 0, green := 255, blue := 10 } ∧
    (sendCommand 1060 (colorPickerEvent 1010 0 255 10
        (colorPickerEvent 1000 0 255 0 initState))).sent
      = initState.sent
          ++ [{ initState.ledCommand with red := 0, green := 255, blue := 0 },
              { initState.ledCommand with red := 0, green := 255, blue := 10 }] :=
  claim3_amended initState 1000 1010 1060 (by decide) (by decide) (by decide)

/-- C4 (counterexample): `OnDataRecv` stamps the debounce timestamp
`lastRequest` BEFORE validating the payload, so an invalid datagram does
modify bookkeeping: after `[1,0]` arrives at 1000 ms, `lastRequest`
becomes 1000, and a perfectly valid `[1,1]` request at 1150 ms (150 ms
later) is then dropped — its counter stays 0 — which refutes "no
bookkeeping (including the debounce timestamp) is modified". -/
theorem claim4_cex :
    (OnDataRecv 1000 macZero [1, 0] initState).lastRequest = 1000 ∧
    initState.lastRequest = 0 ∧
    (OnDataRecv 1150 macZero [1, 1]
        (OnDataRecv 1000 macZero [1, 0] initState)).requestsReceived = 0 := by
  exact ⟨rfl, rfl, rfl⟩

/-- C4 (amended): an inbound datagram that is not a valid `[1,1]` request
(wrong length or wrong tag bytes) produces no send, increments no counter
and leaves the command state alone — but it is NOT entirely side-effect
free: when it arrives outside the debounce window it updates the debounce
timestamp `lastRequest` to the arrival time (inside the window it is a
true no-op). -/
theorem claim4_amended (now : Nat) (mac d : List Nat) (s : CtrlState)
    (h : isValidRequest d = false) :
    (OnDataRecv now mac d s).sent = s.sent ∧
    (OnDataRecv now mac d s).requestsReceived = s.requestsReceived ∧
    (OnDataRecv now mac d s).commandsSent = s.commandsSent ∧
    (OnDataRecv now mac d s).ledCommand = s.ledCommand ∧
    OnDataRecv now mac d s
      = if now - s.lastRequest < 200 then s
        else { s with lastRequest := now } := by
  by_cases hd : now - s.lastRequest < 200
  · rw [OnDataRecv_debounced now mac d s hd, if_pos hd]
    exact ⟨rfl, rfl, rfl, rfl, rfl⟩
  · rw [OnDataRecv_rejects now mac d s (by omega) h, if_neg hd]
    exact ⟨rfl, rfl, rfl, rfl, rfl⟩

/-- C4 witness: the amended statement evaluated on the invalid datagram
`[1,0]` arriving at 1000 ms in the post-setup state. -/
theorem claim4_witness :
    (OnDataRecv 1000 macZero [1, 0] initState).sent = initState.sent ∧
    (OnDataRecv 1000 macZero [1, 0] initState).requestsReceived
      = initState.requestsReceived ∧
    (OnDataRecv 1000 macZero [1, 0] initState).commandsSent
      = initState.commandsSent ∧
    (OnDataRecv 1000 macZero [1, 0] initState).ledCommand
      = initState.ledCommand ∧
    OnDataRecv 1000 macZero [1, 0] initState
      = if 1000 - initState.lastRequest < 200 then initState
        else { initState with lastRequest := 1000 } :=
  claim4_amended 1000 macZero [1, 0] initState (by decide)

theorem sendCommand_ledCommand (t : Nat) (x : CtrlState) :
    (sendCommand t x).ledCommand = x.ledCommand := by
  unfold sendCommand
  split <;> rfl

theorem loopTouch_sent (touched : Bool) (x : CtrlState) :
    (loopTouch touched x).sent = x.sent := by
  unfold loopTouch
  split <;> rfl

theorem loopTouch_lastHeartbeat (touched : Bool) (x : CtrlState) :
    (loopTouch touched x).lastHeartbeat = x.lastHeartbeat := by
  unfold loopTouch
  split <;> rfl

theorem loopTouch_ledCommand (touched : Bool) (x : CtrlState) :
    (loopTouch touched x).ledCommand = x.ledCommand := by
  unfold loopTouch
  split <;> rfl

theorem offByte : ((-255 : Int) % 256).toNat = 1 := by decide

/-- C5: two valid `[1,1]` resync requests less than 200 ms apart, arriving
when the debounce window and the rate limiter are both open, result in
exactly one accepted request — the counter increments by exactly one — and
exactly one transmission of the current command state; the second request
is dropped by the debounce check without any further effect. -/
theorem claim5_debounce (s : CtrlState) (t1 t2 : Nat) (mac1 mac2 : List Nat)
    (h1 : 200 ≤ t1 - s.lastRequest) (h2 : 50 ≤ t1 - s.lastSendAttempt)
    (h3 : t1 ≤ t2) (h4 : t2 - t1 < 200) :
    (OnDataRecv t2 mac2 [1, 1] (OnDataRecv t1 mac1 [1, 1] s)).requestsReceived
      = s.requestsReceived + 1 ∧
    (OnDataRecv t2 mac2 [1, 1] (OnDataRecv t1 mac1 [1, 1] s)).sent
      = s.sent ++ [s.ledCommand] := by
  have c1 : ¬ (t1 - s.lastRequest < 200) := by omega
  have c2 : ¬ (t1 - s.lastSendAttempt < 50) := by omega
  simp only [OnDataRecv, sendCommand]
  simp [c1, c2, h4]

/-- C5 witness: the statement evaluated at the post-setup state with
requests at 1000 ms and 1100 ms. -/
theorem claim5_witness :
    (OnDataRecv 1100 macZero [1, 1]
        (OnDataRecv 1000 macZero [1, 1] initState)).requestsReceived
      = initState.requestsReceived + 1 ∧
    (OnDataRecv 1100 macZero [1, 1]
        (OnDataRecv 1000 macZero [1, 1] initState)).sent
      = initState.sent ++ [initState.ledCommand] :=
  claim5_debounce initState 1000 1100 macZero macZero
    (by decide) (by decide) (by decide) (by decide)

/-- C6: with no UI activity and no inbound requests, a loop pass at any
time more than `HEARTBEAT_INTERVAL` (5000 ms) after `lastHeartbeat`
transmits the unchanged `ledCommand` and restamps the heartbeat timer
(so a send happens at least once per heartbeat interval of loop passes);
and `lastHeartbeat` is written by no operation other than the loop's
heartbeat block — every UI handler, both ESP-NOW callbacks and
`sendCommand` leave it unchanged. -/
theorem claim6_heartbeat (s x : CtrlState) (now t r g b v : Nat)
    (touched isW : Bool) (m d : List Nat) (st : EspNowSendStatus)
    (hmono : s.lastSendAttempt ≤ s.lastHeartbeat)
    (hdue : s.lastHeartbeat + HEARTBEAT_INTERVAL < now) :
    (loop now touched s).sent = s.sent ++ [s.ledCommand] ∧
    (loop now touched s).lastHeartbeat = now ∧
    (loop now touched s).ledCommand = s.ledCommand ∧
    (colorPickerEvent t r g b x).lastHeartbeat = x.lastHeartbeat ∧
    (brightnessSliderEvent t v x).lastHeartbeat = x.lastHeartbeat ∧
    (whiteSliderEvent t isW v x).lastHeartbeat = x.lastHeartbeat ∧
    (effectDropdownEvent t v x).lastHeartbeat = x.lastHeartbeat ∧
    (speedSliderEvent t v x).lastHeartbeat = x.lastHeartbeat ∧
    (ledToggleButtonEvent t x).lastHeartbeat = x.lastHeartbeat ∧
    (backlightSliderEvent v x).lastHeartbeat = x.lastHeartbeat ∧
    (sleepButtonEvent x).lastHeartbeat = x.lastHeartbeat ∧
    (OnDataRecv t m d x).lastHeartbeat = x.lastHeartbeat ∧
    (OnDataSent st x).lastHeartbeat = x.lastHeartbeat ∧
    (sendCommand t x).lastHeartbeat = x.lastHeartbeat := by
  have hc : HEARTBEAT_INTERVAL < now - s.lastHeartbeat := by
    simp only [HEARTBEAT_INTERVAL] at hdue ⊢
    omega
  have hfire : 50 ≤ now - s.lastSendAttempt := by
    simp only [HEARTBEAT_INTERVAL] at hdue
    omega
  refine ⟨?_, ?_, ?_, ?_, ?_, ?_, ?_, ?_, ?_, ?_, ?_, ?_, ?_, ?_⟩
  · rw [loop, loopTouch_sent]
    unfold loopHeartbeat sendHeartbeat
    rw [if_pos hc, sendCommand_fires now s hfire]
  · rw [loop, loopTouch_lastHeartbeat]
    unfold loopHeartbeat
    rw [if_pos hc]
  · rw [loop, loopTouch_ledCommand]
    unfold loopHeartbeat sendHeartbeat
    rw [if_pos hc]
    exact sendCommand_ledCommand now s
  · exact sendCommand_lastHeartbeat t _
  · exact sendCommand_lastHeartbeat t _
  · unfold whiteSliderEvent
    split <;> exact sendCommand_lastHeartbeat t _
  · exact sendCommand_lastHeartbeat t _
  · exact sendCommand_lastHeartbeat t _
  · unfold ledToggleButtonEvent
    split <;> exact sendCommand_lastHeartbeat t _
  · rfl
  · rfl
  · exact OnDataRecv_lastHeartbeat t m d x
  · unfold OnDataSent
    split <;> rfl
  · exact sendCommand_lastHeartbeat t x

/-- C6 witness: the statement evaluated at the post-setup state with a
loop pass at 6000 ms and each other operation at concrete inputs. -/
theorem claim6_witness :
    (loop 6000 false initState).sent = initState.sent ++ [initState.ledCommand] ∧
    (loop 6000 false initState).lastHeartbeat = 6000 ∧
    (loop 6000 false initState).ledCommand = initState.ledCommand ∧
    (colorPickerEvent 0 0 0 0 initState).lastHeartbeat = initState.lastHeartbeat ∧
    (brightnessSliderEvent 0 5 initState).lastHeartbeat = initState.lastHeartbeat ∧
    (whiteSliderEvent 0 true 5 initState).lastHeartbeat = initState.lastHeartbeat ∧
    (effectDropdownEvent 0 5 initState).lastHeartbeat = initState.lastHeartbeat ∧
    (speedSliderEvent 0 5 initState).lastHeartbeat = initState.lastHeartbeat ∧
    (ledToggleButtonEvent 0 initState).lastHeartbeat = initState.lastHeartbeat ∧
    (backlightSliderEvent 5 initState).lastHeartbeat = initState.lastHeartbeat ∧
    (sleepButtonEvent initState).lastHeartbeat = initState.lastHeartbeat ∧
    (OnDataRecv 0 macZero [] initState).lastHeartbeat = initState.lastHeartbeat ∧
    (OnDataSent EspNowSendStatus.success initState).lastHeartbeat
      = initState.lastHeartbeat ∧
    (sendCommand 0 initState).lastHeartbeat = initState.lastHeartbeat :=
  claim6_heartbeat initState initState 6000 0 0 0 0 5 false true macZero []
    EspNowSendStatus.success (by decide) (by decide)

/-- C7: toggling the LEDs off while they are on assigns `-255` to the
unsigned 8-bit brightness field, which under the C++ conversion is
`(-255) mod 256 = 1`; the datagram transmitted for the "off" command
therefore carries brightness byte 1, not 0. -/
theorem claim7_off_brightness (s : CtrlState) (now : Nat)
    (hon : s.ledsOn = true) (h : 50 ≤ now - s.lastSendAttempt) :
    (ledToggleButtonEvent now s).ledCommand.brightness
      = ((-255 : Int) % 256).toNat ∧
    ((-255 : Int) % 256).toNat = 1 ∧
    (ledToggleButtonEvent now s).ledCommand.brightness ≠ 0 ∧
    (ledToggleButtonEvent now s).sent
      = s.sent ++ [{ s.ledCommand with brightness := 1 }] ∧
    (ledToggleButtonEvent now s).ledsOn = false := by
  rw [ledToggle_off now s hon]
  rw [sendCommand_fires now
      { s with ledsOn := false,
               ledCommand := { s.ledCommand with brightness := 1 } } h]
  exact ⟨by simp [offByte], offByte, by simp, rfl, rfl⟩

/-- C7 witness: the statement evaluated at the post-setup state (LEDs on)
with the toggle at 1000 ms. -/
theorem claim7_witness :
    (ledToggleButtonEvent 1000 initState).ledCommand.brightness
      = ((-255 : Int) % 256).toNat ∧
    ((-255 : Int) % 256).toNat = 1 ∧
    (ledToggleButtonEvent 1000 initState).ledCommand.brightness ≠ 0 ∧
    (ledToggleButtonEvent 1000 initState).sent
      = initState.sent ++ [{ initState.ledCommand with brightness := 1 }] ∧
    (ledToggleButtonEvent 1000 initState).ledsOn = false :=
  claim7_off_brightness initState 1000 (by decide) (by decide)

/-- C8: the send-completion callback sets `lastSendSuccess` to
`status == SUCCESS` and increments `commandsSent` exactly when the status
is success, leaving it unchanged otherwise. -/
theorem claim8_sendStatus (status : EspNowSendStatus) (s : CtrlState) :
    (OnDataSent status s).lastSendSuccess = status.isSuccess ∧
    (OnDataSent status s).commandsSent
      = (if status.isSuccess then s.commandsSent + 1 else s.commandsSent) := by
  cases status <;> simp [OnDataSent, EspNowSendStatus.isSuccess]

/-- C9: the receive handler never examines the sender address — two
datagrams with identical payload and arrival time but different MAC
addresses produce identical states — and consequently a valid `[1,1]`
request from any device triggers a transmission of the current state
(debounce and rate limiter permitting). -/
theorem claim9_mac_independent (now : Nat) (mac1 mac2 d : List Nat)
    (s : CtrlState)
    (h1 : 200 ≤ now - s.lastRequest) (h2 : 50 ≤ now - s.lastSendAttempt) :
    OnDataRecv now mac1 d s = OnDataRecv now mac2 d s ∧
    (OnDataRecv now mac1 [1, 1] s).sent = s.sent ++ [s.ledCommand] := by
  constructor
  · rfl
  · have c1 : ¬ (now - s.lastRequest < 200) := by omega
    have c2 : ¬ (now - s.lastSendAttempt < 50) := by omega
    simp only [OnDataRecv, sendCommand]
    simp [c1, c2]

/-- C9 witness: the statement evaluated at the post-setup state with a
request at 1000 ms from two distinct MAC addresses. -/
theorem claim9_witness :
    OnDataRecv 1000 macZero [1, 1] initState
      = OnDataRecv 1000 [1, 2, 3, 4, 5, 6] [1, 1] initState ∧
    (OnDataRecv 1000 macZero [1, 1] initState).sent
      = initState.sent ++ [initState.ledCommand] :=
  claim9_mac_independent 1000 macZero [1, 2, 3, 4, 5, 6] [1, 1] initState
    (by decide) (by decide)

/-- C10: toggling the LEDs off and then back on writes the display
backlight level `displayBrightness` (slider range 1-16) into
`ledCommand.brightness`, regardless of what the LED brightness slider last
set, and the datagram transmitted by the toggle-on carries that backlight
value as the LED brightness. -/
theorem claim10_toggle_backlight (s : CtrlState) (t1 t2 v : Nat)
    (hon : s.ledsOn = true) (hv : v ≤ 16)
    (hgap : 50 ≤ t2 - t1) (hgap2 : 50 ≤ t2 - s.lastSendAttempt) :
    (ledToggleButtonEvent t2
        (ledToggleButtonEvent t1 (backlightSliderEvent v s))).ledCommand.brightness
      = v ∧
    (ledToggleButtonEvent t2
        (ledToggleButtonEvent t1 (backlightSliderEvent v s))).sent.getLast?
      = some { s.ledCommand with brightness := v } ∧
    (ledToggleButtonEvent t2
        (ledToggleButtonEvent t1 (backlightSliderEvent v s))).ledsOn = true := by
  have hv256 : v % 256 = v := Nat.mod_eq_of_lt (by omega)
  by_cases hb : t1 - s.lastSendAttempt < 50
  · have c2 : ¬ (t2 - s.lastSendAttempt < 50) := by omega
    simp only [backlightSliderEvent, ledToggleButtonEvent, sendCommand]
    simp [hon, hb, c2, hv256, offByte]
  · have c2 : ¬ (t2 - t1 < 50) := by omega
    simp only [backlightSliderEvent, ledToggleButtonEvent, sendCommand]
    simp [hon, hb, c2, hv256, offByte]

/-- C10 witness: the statement evaluated at the post-setup state with the
backlight at 8, toggle-off at 1000 ms and toggle-on at 1060 ms. -/
theorem claim10_witness :
    (ledToggleButtonEvent 1060
        (ledToggleButtonEvent 1000 (backlightSliderEvent 8 initState))).ledCommand.brightness
      = 8 ∧
    (ledToggleButtonEvent 1060
        (ledToggleButtonEvent 1000 (backlightSliderEvent 8 initState))).sent.getLast?
      = some { initState.ledCommand with brightness := 8 } ∧
    (ledToggleButtonEvent 1060
        (ledToggleButtonEvent 1000 (backlightSliderEvent 8 initState))).ledsOn
      = true :=
  claim10_toggle_backlight initState 1000 1060 8
    (by decide) (by decide) (by decide) (by decide)
